import Mathlib

/-!
Verification of the bookstore REST backend (`app/api/order.py`, `app/api/book.py`,
`app/api/reviews.py`, `app/api/recommend.py`, `app/utils/db.py`).

The database state is modelled as explicit lists of rows; each handler becomes a
pure function from a request and a state to a result (`Except`-style error or
payload) and a new state.  SQL statements are translated clause by clause into
list operations; Python truthiness of optional parameters (`if field:`) is
modelled by explicit `truthy…` helpers, since `None`, `0`, `0.0`, `""` and `[]`
are all falsy in Python.
-/

namespace Bookstore

/-- Error taxonomy of the handlers (HTTP error responses raised via
`HTTPException`).  `InternalError` models an unhandled Python exception
(e.g. a `KeyError` on a dict lookup), which FastAPI surfaces as a 500. -/
inductive ApiErr
  | NotFound
  | InvalidState
  | InsufficientStock
  | InvalidRequest
  | Forbidden
  | InvalidTransition
  | DuplicateReview
  | InternalError
deriving DecidableEq, Repr

deriving instance DecidableEq for Except

/-- Python truthiness of an optional string: `None` and `""` are falsy. -/
def truthyOptStr : Option String → Bool
  | none => false
  | some s => s ≠ ""

/-- Python truthiness of an optional integer: `None` and `0` are falsy. -/
def truthyOptInt : Option Int → Bool
  | none => false
  | some n => n ≠ 0

/-- Python truthiness of an optional natural-valued id: `None` and `0` are falsy. -/
def truthyOptNat : Option Nat → Bool
  | none => false
  | some n => n ≠ 0

/-- Python truthiness of an optional numeric (float/decimal) value:
`None` and `0.0` are falsy. -/
def truthyOptRat : Option Rat → Bool
  | none => false
  | some q => q ≠ 0

/-- `SELECT DISTINCT`: keep the first occurrence of each value, in row order. -/
def sqlDistinct {α : Type} [DecidableEq α] (l : List α) : List α :=
  l.foldl (fun acc x => if x ∈ acc then acc else acc ++ [x]) []

/-- Stable insertion used by `sortByDesc`: insert `x` before the first element
`y` with `le x y = true`. -/
def sortInsert {α : Type} (le : α → α → Bool) (x : α) : List α → List α
  | [] => [x]
  | y :: ys => if le x y then x :: y :: ys else y :: sortInsert le x ys

/-- Deterministic (stable insertion) sort modelling `ORDER BY`:
`le a b` means `a` may come before `b`. -/
def sortBy {α : Type} (le : α → α → Bool) : List α → List α
  | [] => []
  | x :: xs => sortInsert le x (sortBy le xs)

/-! ## Order module (`app/api/order.py`) -/

/-- A row of the `book` table, with the columns read or written by
`app/api/order.py` (`book_id`, `seller_ID`, `price`, `stock`, `status`,
`update_time`).  `status = 1` means on sale. -/
structure OrderBook where
  book_id : Nat
  seller_ID : Nat
  price : Rat
  stock : Int
  status : Int
  update_time : Nat
deriving DecidableEq, Repr

/-- A row of the `orders` table as inserted by `create_order`. -/
structure OrderRow where
  order_id : Nat
  order_no : String
  buyer_id : Nat
  seller_id : Nat
  product_id : Nat
  quantity : Int
  total_amount : Rat
  fulfillment_type : String
  pickup_location_id : Option Int
  receiver_name : Option String
  receiver_phone : Option String
  receiver_address : Option String
  remark : Option String
  status : String
  logistics_no : Option String
  create_time : Nat
  update_time : Nat
deriving DecidableEq, Repr

/-- Database state seen by the order module.  `next_order_id` models the
auto-increment id counter of the `orders` table. -/
structure OrderState where
  books : List OrderBook
  orders : List OrderRow
  next_order_id : Nat
deriving DecidableEq, Repr

/-- `CreateOrderRequest` (Pydantic model). -/
structure CreateOrderRequest where
  product_id : Nat
  buyer_id : Nat
  quantity : Int := 1
  fulfillment_type : String
  pickup_location_id : Option Int := none
  receiver_name : Option String := none
  receiver_phone : Option String := none
  receiver_address : Option String := none
  remark : Option String := none
deriving DecidableEq, Repr

/-- The `data` payload returned by a successful `create_order`. -/
structure CreateOrderResult where
  order_id : Nat
  order_no : String
  total_amount : Rat
  status : String
deriving DecidableEq, Repr

/-- `str(buyer_id)[-4:].zfill(4)`: last four decimal digits of the buyer id,
left-padded with zeros to width 4. -/
def last4zfill (n : Nat) : String :=
  let s := (Nat.repr n).takeRight 4
  String.mk (List.replicate (4 - s.length) '0') ++ s

/-- Order number: `now.strftime('%Y%m%d%H%M%S')` concatenated with the padded
buyer-id suffix.  The timestamp rendering is passed in as `nowStr`. -/
def genOrderNo (nowStr : String) (buyer_id : Nat) : String :=
  nowStr ++ last4zfill buyer_id

/-- The row inserted by step 4 of `create_order` (status `pending_pay`,
`seller_id` copied from the product row). -/
def newOrderRow (req : CreateOrderRequest) (product : OrderBook) (nowStr : String)
    (now : Nat) (s : OrderState) : OrderRow :=
  { order_id := s.next_order_id
    order_no := genOrderNo nowStr req.buyer_id
    buyer_id := req.buyer_id
    seller_id := product.seller_ID
    product_id := req.product_id
    quantity := req.quantity
    total_amount := product.price * (req.quantity : Rat)
    fulfillment_type := req.fulfillment_type
    pickup_location_id := req.pickup_location_id
    receiver_name := req.receiver_name
    receiver_phone := req.receiver_phone
    receiver_address := req.receiver_address
    remark := req.remark
    status := "pending_pay"
    logistics_no := none
    create_time := now
    update_time := now }

/-- State after the unconditional `INSERT INTO orders` of `create_order`
(each statement commits on its own; no surrounding transaction). -/
def afterInsert (req : CreateOrderRequest) (product : OrderBook) (nowStr : String)
    (now : Nat) (s : OrderState) : OrderState :=
  { s with
      orders := s.orders ++ [newOrderRow req product nowStr now s]
      next_order_id := s.next_order_id + 1 }

/-- The `WHERE` clause of the conditional stock decrement:
`book_id = %s AND stock >= %s`. -/
def stockCond (req : CreateOrderRequest) (b : OrderBook) : Bool :=
  decide (b.book_id = req.product_id ∧ req.quantity ≤ b.stock)

/-- `create_order` (POST `/orders/`).  `nowStr` is the `strftime` rendering of
the current UTC time, `now` the timestamp written into time columns.
`interfere` is the state transformation performed by concurrent requests
between the order insert and the conditional stock decrement (the race window
the code defends against); `id` gives the sequential execution. -/
def create_order (req : CreateOrderRequest) (nowStr : String) (now : Nat)
    (interfere : OrderState → OrderState) (s : OrderState) :
    Except ApiErr CreateOrderResult × OrderState :=
  -- step 1: fetch the product, check existence, on-sale status and stock
  match s.books.find? (fun b => decide (b.book_id = req.product_id)) with
  | none => (.error .NotFound, s)
  | some product =>
    if product.status ≠ 1 then (.error .InvalidState, s)
    else if product.stock < req.quantity then (.error .InsufficientStock, s)
    -- step 2: fulfillment-specific required fields
    else if req.fulfillment_type = "self_pickup" ∧ ¬ truthyOptInt req.pickup_location_id then
      (.error .InvalidRequest, s)
    else if req.fulfillment_type = "logistics" ∧
        ¬ (truthyOptStr req.receiver_name ∧ truthyOptStr req.receiver_phone ∧
           truthyOptStr req.receiver_address) then
      (.error .InvalidRequest, s)
    else
      -- step 3: total = unit price × quantity
      let total_amount := product.price * (req.quantity : Rat)
      let order_no := genOrderNo nowStr req.buyer_id
      -- step 4: insert the order row (commits immediately)
      let s1 := afterInsert req product nowStr now s
      -- race window: concurrent requests may run here
      let s2 := interfere s1
      -- step 5: conditional decrement, `affected_rows` counts matching rows
      let affected := s2.books.countP (stockCond req)
      if affected = 0 then
        -- compensating action: DELETE FROM orders WHERE order_no = %s
        (.error .InsufficientStock,
         { s2 with orders := s2.orders.filter (fun o => o.order_no ≠ order_no) })
      else
        (.ok { order_id := s.next_order_id, order_no := order_no
               total_amount := total_amount, status := "pending_pay" },
         { s2 with
             books := s2.books.map (fun b =>
               if stockCond req b then
                 { b with stock := b.stock - req.quantity, update_time := now }
               else b) })

/-- `UpdateOrderStatusRequest` (Pydantic model). -/
structure UpdateOrderStatusRequest where
  order_id : Nat
  status : String
  operator_id : Nat
  logistics_no : Option String := none
deriving DecidableEq, Repr

/-- The `valid_transitions` dict of `update_order_status`; `none` models the
`KeyError` a Python dict lookup raises on a status outside the table. -/
def valid_transitions : String → Option (List String)
  | "pending_pay" => some ["cancelled", "pending_ship"]
  | "pending_ship" => some ["cancelled", "pending_receive"]
  | "pending_receive" => some ["completed", "cancelled"]
  | "completed" => some []
  | "cancelled" => some []
  | _ => none

/-- `update_order_status` (PUT `/orders/status`). -/
def update_order_status (req : UpdateOrderStatusRequest) (now : Nat)
    (s : OrderState) : Except ApiErr Unit × OrderState :=
  -- step 1: the order must exist
  match s.orders.find? (fun o => decide (o.order_id = req.order_id)) with
  | none => (.error .NotFound, s)
  | some order =>
    -- step 2: the operator must be the buyer or the seller
    if req.operator_id ≠ order.buyer_id ∧ req.operator_id ≠ order.seller_id then
      (.error .Forbidden, s)
    else
      -- step 3: the requested status must be in the allowed set
      match valid_transitions order.status with
      | none => (.error .InternalError, s)
      | some allowed =>
        if req.status ∉ allowed then (.error .InvalidTransition, s)
        -- step 4: shipping requires a logistics tracking number
        else if req.status = "pending_receive" ∧ ¬ truthyOptStr req.logistics_no then
          (.error .InvalidRequest, s)
        else
          -- step 5: persist new status (and tracking number) + update_time
          (.ok (),
           { s with orders := s.orders.map (fun o =>
               if o.order_id = req.order_id then
                 { o with
                     status := req.status
                     update_time := now
                     logistics_no :=
                       if req.status = "pending_receive" then req.logistics_no
                       else o.logistics_no }
               else o) })

/-! ## Book module (`app/api/book.py`) -/

/-- A row of the `book` table with the columns touched by `update_book`
(plus `seller_ID`, the ownership column of the data model). -/
structure BBook where
  book_id : Nat
  book_name : String
  price : Rat
  stock : Int
  status : Int
  seller_ID : Nat
  update_time : Nat
deriving DecidableEq, Repr

/-- Database state seen by the book module. -/
structure BookState where
  books : List BBook
deriving DecidableEq, Repr

/-- `update_book` (PUT `/books/{book_id}`).  Each optional body field is added
to the `SET` clause only when truthy (`if book_name:` etc.), then
`update_time = NOW()` is always appended, so the `if not update_fields`
rejection branch is unreachable.  The route declares no authentication
dependency and receives no operator identity. -/
def update_book (book_id : Nat) (book_name : Option String) (price : Option Rat)
    (stock : Option Int) (status : Option Int) (now : Nat) (s : BookState) :
    Except ApiErr Unit × BookState :=
  let update_fields : List String :=
    (if truthyOptStr book_name then ["book_name"] else []) ++
    (if truthyOptRat price then ["price"] else []) ++
    (if truthyOptInt stock then ["stock"] else []) ++
    (if truthyOptInt status then ["status"] else []) ++
    ["update_time"]
  if update_fields = [] then (.error .InvalidRequest, s)
  else
    (.ok (),
     { books := s.books.map (fun b =>
         if b.book_id = book_id then
           { b with
               book_name := if truthyOptStr book_name then book_name.getD b.book_name
                            else b.book_name
               price := if truthyOptRat price then price.getD b.price else b.price
               stock := if truthyOptInt stock then stock.getD b.stock else b.stock
               status := if truthyOptInt status then status.getD b.status else b.status
               update_time := now }
         else b) })

/-- An HTTP call to `update_book` made by user `caller`.  The route has no
authentication dependency, so the caller's identity never reaches the handler:
the call is processed identically for every caller. -/
def update_book_as (caller : Nat) (book_id : Nat) (book_name : Option String)
    (price : Option Rat) (stock : Option Int) (status : Option Int) (now : Nat)
    (s : BookState) : Except ApiErr Unit × BookState :=
  update_book book_id book_name price stock status now s

/-! ## Review module (`app/api/reviews.py`) -/

/-- A row of the `orders` table with the columns read by `create_review`. -/
structure RevOrder where
  order_id : Nat
  buyer_id : Nat
  seller_id : Nat
  product_id : Nat
  status : String
deriving DecidableEq, Repr

/-- A row of the `reviews` table. -/
structure Review where
  id : Nat
  order_id : Nat
  reviewer_id : Nat
  seller_id : Nat
  product_id : Nat
  rating : Int
  content : Option String
  img_urls : Option String
  create_time : Nat
  update_time : Nat
deriving DecidableEq, Repr

/-- A row of the `users` table with the seller-reputation columns written by
`create_review`. -/
structure RevUser where
  user_id : Nat
  avg_rating : Rat
  review_count : Nat
  update_time : Nat
deriving DecidableEq, Repr

/-- Database state seen by the review module.  `next_review_id` models the
auto-increment id of the `reviews` table. -/
structure ReviewState where
  orders : List RevOrder
  reviews : List Review
  users : List RevUser
  next_review_id : Nat
deriving DecidableEq, Repr

/-- `CreateReviewRequest` (Pydantic model). -/
structure CreateReviewRequest where
  order_id : Nat
  rating : Int
  content : Option String := none
  img_urls : Option (List String) := none
  reviewer_id : Nat
deriving DecidableEq, Repr

/-- Python truthiness of the optional image list: `None` and `[]` are falsy. -/
def truthyOptList : Option (List String) → Bool
  | none => false
  | some l => l ≠ []

/-- `round` of Python with one decimal digit: scale by 10, round half to even,
scale back (both `round(float, 1)` and `round(Decimal, 1)` round half to
even). -/
def roundHalfEvenInt (q : Rat) : Int :=
  let f := ⌊q⌋
  if q - f < 1/2 then f
  else if (1 : Rat)/2 < q - f then f + 1
  else if f % 2 = 0 then f else f + 1

/-- `round(x, 1)`. -/
def round1 (q : Rat) : Rat := (roundHalfEvenInt (q * 10) : Rat) / 10

/-- `SELECT AVG(rating) ... WHERE seller_id = %s`: `NULL` (`none`) when the
seller has no reviews. -/
def sellerAvgRating (seller_id : Nat) (reviews : List Review) : Option Rat :=
  let rs := reviews.filter (fun r => r.seller_id = seller_id)
  if rs.length = 0 then none
  else some ((rs.map (fun r => (r.rating : Rat))).sum / (rs.length : Rat))

/-- `SELECT COUNT(*) ... WHERE seller_id = %s`. -/
def sellerReviewCount (seller_id : Nat) (reviews : List Review) : Nat :=
  (reviews.filter (fun r => r.seller_id = seller_id)).length

/-- `create_review` (POST `/reviews/`). -/
def create_review (req : CreateReviewRequest) (now : Nat) (s : ReviewState) :
    Except ApiErr (Nat × Rat) × ReviewState :=
  -- step 1: the order must exist and belong to the claimed reviewer
  -- (`WHERE order_id = %s AND buyer_id = %s`)
  match s.orders.find? (fun o =>
      decide (o.order_id = req.order_id) && decide (o.buyer_id = req.reviewer_id)) with
  | none => (.error .NotFound, s)
  | some order =>
    if order.status ≠ "completed" then (.error .InvalidState, s)
    -- step 2: no prior review for this order
    else if (s.reviews.find? (fun r => decide (r.order_id = req.order_id))).isSome then
      (.error .DuplicateReview, s)
    else
      -- step 3: join image list into a comma-separated string; at most 3 images
      let img_str : Option String :=
        if truthyOptList req.img_urls then some (String.intercalate "," (req.img_urls.getD []))
        else none
      if truthyOptList req.img_urls ∧ 3 < (req.img_urls.getD []).length then
        (.error .InvalidRequest, s)
      else
        -- step 4: insert the review; text silently truncated to 500 characters
        let content : Option String :=
          match req.content with
          | some c => if c ≠ "" then some (c.take 500) else none
          | none => none
        let newReview : Review :=
          { id := s.next_review_id
            order_id := req.order_id
            reviewer_id := req.reviewer_id
            seller_id := order.seller_id
            product_id := order.product_id
            rating := req.rating
            content := content
            img_urls := img_str
            create_time := now
            update_time := now }
        let s1 := { s with reviews := s.reviews ++ [newReview]
                           next_review_id := s.next_review_id + 1 }
        -- step 5: recompute the seller's aggregate reputation (after insert)
        let avgOpt := sellerAvgRating order.seller_id s1.reviews
        let avg_rating : Rat :=
          if truthyOptRat avgOpt then round1 (avgOpt.getD 0) else 5
        let review_count := sellerReviewCount order.seller_id s1.reviews
        let s2 := { s1 with users := s1.users.map (fun u =>
            if u.user_id = order.seller_id then
              { u with avg_rating := avg_rating, review_count := review_count
                       update_time := now }
            else u) }
        (.ok (s.next_review_id, avg_rating), s2)

/-! ## Data access layer (`app/utils/db.py`) -/

/-- The payload returned by `execute_query_paginated`. -/
structure PageResult (α : Type) where
  data : List α
  total : Nat
  page : Int
  page_size : Int
  total_pages : Int
deriving DecidableEq, Repr

/-- `execute_query_paginated(sql, params, page, page_size)`.  The base query
is represented by the list of rows it denotes; `LIMIT %s OFFSET %s` becomes
`drop`/`take`, and the derived `SELECT COUNT(*) FROM (sql) AS subquery`
becomes the row count.  Out-of-range `page` and `page_size` are silently
clamped. -/
def execute_query_paginated {α : Type} (rows : List α) (page0 : Int)
    (page_size0 : Int) : PageResult α :=
  let page := if page0 < 1 then 1 else page0
  let page_size := if page_size0 < 1 ∨ 100 < page_size0 then 10 else page_size0
  let offset := (page - 1) * page_size
  { data := (rows.drop offset.toNat).take page_size.toNat
    total := rows.length
    page := page
    page_size := page_size
    total_pages := ((rows.length : Int) + page_size - 1) / page_size }

/-! ## Recommendation module (`app/api/recommend.py`) -/

/-- A row of the `book` table with the columns used by the recommendation
queries; here `status` is compared against the string `'online'`. -/
structure RecBook where
  book_id : Nat
  book_name : String
  cover_img : String
  price : Rat
  seller_ID : Nat
  view : Nat
  status : String
  stock : Int
  category_id : Nat
deriving DecidableEq, Repr

/-- A row of the `users` table with the columns used by the recommendation
module; `nickname`/`avatar` are nullable. -/
structure RecUser where
  user_id : Nat
  school_id : Option Nat
  nickname : Option String
  avatar : Option String
deriving DecidableEq, Repr

/-- A row of the `orders` table with the columns used by the recommendation
queries. -/
structure RecOrder where
  order_id : Nat
  buyer_id : Nat
  product_id : Nat
  status : String
  create_time : Nat
deriving DecidableEq, Repr

/-- A row of the `reviews` table with the columns used by the recommendation
queries. -/
structure RecReview where
  reviewer_id : Nat
  product_id : Nat
  create_time : Nat
deriving DecidableEq, Repr

/-- Database state seen by the recommendation module. -/
structure RecState where
  books : List RecBook
  users : List RecUser
  orders : List RecOrder
  reviews : List RecReview
deriving DecidableEq, Repr

/-- An output entry after `enrich_products_with_seller_info`: the raw
`seller_ID` is removed and the seller's display name/avatar are added. -/
structure Enriched where
  book_id : Nat
  book_name : String
  cover_img : String
  price : Rat
  seller_nickname : Option String
  seller_avatar : Option String
deriving DecidableEq, Repr

/-- `get_user_school_id`: the user's `school_id` if that column is truthy
(`NULL` and `0` are falsy). -/
def get_user_school_id (user_id : Nat) (s : RecState) : Option Nat :=
  match s.users.find? (fun u => decide (u.user_id = user_id)) with
  | some u =>
    match u.school_id with
    | some sid => if sid ≠ 0 then some sid else none
    | none => none
  | none => none

/-- `get_school_popular_products`: `book JOIN users` on the seller id,
filtered to the school and `status = 'online'`, ordered by view count
descending, limited. -/
def get_school_popular_products (school_id : Nat) (limit : Nat) (s : RecState) :
    List RecBook :=
  let rows := s.books.flatMap (fun b =>
    if b.status = "online" then
      (s.users.filter (fun u =>
        decide (u.user_id = b.seller_ID ∧ u.school_id = some school_id))).map
        (fun _ => b)
    else [])
  (sortBy (fun a b => decide (b.view ≤ a.view)) rows).take limit

/-- Per-value occurrence counts of a list, in first-occurrence order
(the `GROUP BY` of the preference queries). -/
def groupCounts (l : List Nat) : List (Nat × Nat) :=
  (sqlDistinct l).map (fun c => (c, l.count c))

/-- Add `v` to the score of key `c` in an association list, appending a new
entry when absent (`dict.get(c, 0) + v`). -/
def updateAssoc : List (Nat × Nat) → Nat → Nat → List (Nat × Nat)
  | [], c, v => [(c, v)]
  | (c', v') :: rest, c, v =>
    if c' = c then (c', v' + v) :: rest else (c', v') :: updateAssoc rest c v

/-- Fold weighted per-category counts into the preference-score dict. -/
def addScores (scores : List (Nat × Nat)) (entries : List (Nat × Nat)) (w : Nat) :
    List (Nat × Nat) :=
  entries.foldl (fun sc e => updateAssoc sc e.1 (e.2 * w)) scores

/-- `get_user_preferred_categories`: category ids of the user's completed
orders (weight 3) and authored reviews (weight 2) over a trailing 180-day
window (`cutoff` is the window's start), sorted by score descending. -/
def get_user_preferred_categories (user_id : Nat) (cutoff : Nat) (s : RecState) :
    List Nat :=
  let purchased := s.orders.flatMap (fun o =>
    if o.buyer_id = user_id ∧ cutoff < o.create_time ∧ o.status = "completed" then
      (s.books.filter (fun b => decide (b.book_id = o.product_id))).map
        (fun b => b.category_id)
    else [])
  let reviewed := s.reviews.flatMap (fun r =>
    if r.reviewer_id = user_id ∧ cutoff < r.create_time then
      (s.books.filter (fun b => decide (b.book_id = r.product_id))).map
        (fun b => b.category_id)
    else [])
  let purchasedCounts :=
    sortBy (fun a b => decide (b.2 ≤ a.2)) (groupCounts purchased)
  let reviewedCounts :=
    sortBy (fun a b => decide (b.2 ≤ a.2)) (groupCounts reviewed)
  let scores := addScores (addScores [] purchasedCounts 3) reviewedCounts 2
  (sortBy (fun a b => decide (b.2 ≤ a.2)) scores).map (fun e => e.1)

/-- Number of completed orders for a book (`LEFT JOIN orders … GROUP BY` with
`COUNT` over the joined rows). -/
def salesCount (book_id : Nat) (s : RecState) : Nat :=
  s.orders.countP (fun o => decide (o.product_id = book_id ∧ o.status = "completed"))

/-- `get_popular_products_in_categories`: on-sale books of the given
categories (no filter when the list is empty), excluding a truthy seller id,
ordered by completed-order count then view count descending, limited. -/
def get_popular_products_in_categories (category_ids : List Nat) (limit : Nat)
    (exclude_seller_id : Option Nat) (s : RecState) : List RecBook :=
  let rows := s.books.filter (fun b =>
    decide (b.status = "online") &&
    (if category_ids ≠ [] then decide (b.category_id ∈ category_ids) else true) &&
    (if truthyOptNat exclude_seller_id then
       decide (b.seller_ID ≠ exclude_seller_id.getD 0)
     else true))
  let withSales := rows.map (fun b => (salesCount b.book_id s, b))
  ((sortBy (fun a b =>
      decide (b.1 < a.1 ∨ (a.1 = b.1 ∧ b.2.view ≤ a.2.view))) withSales).take
    limit).map (fun e => e.2)

/-- `get_collaborative_filtering_recommendations`: up to 10 distinct other
buyers who completed an order for a product this user also completed an order
for; then the distinct books those buyers completed orders for, excluding
books this user already completed orders for.  Note: no `status = 'online'`
condition and no stock condition appear in either query. -/
def get_collaborative_filtering_recommendations (user_id : Nat) (limit : Nat)
    (s : RecState) : List RecBook :=
  let similar := (sqlDistinct (s.orders.flatMap (fun o1 =>
    if o1.buyer_id = user_id ∧ o1.status = "completed" then
      s.orders.filterMap (fun o2 =>
        if o2.product_id = o1.product_id ∧ o2.buyer_id ≠ user_id ∧
            o2.status = "completed" then
          some o2.buyer_id
        else none)
    else []))).take 10
  if similar = [] then []
  else
    let myCompleted : List Nat := s.orders.filterMap (fun o =>
      if o.buyer_id = user_id ∧ o.status = "completed" then some o.product_id
      else none)
    let rows := s.orders.flatMap (fun o =>
      if o.buyer_id ∈ similar ∧ o.status = "completed" then
        s.books.filter (fun b =>
          decide (b.book_id = o.product_id ∧ b.book_id ∉ myCompleted))
      else [])
    (sqlDistinct rows).take limit

/-- `get_global_trending_products`: on-sale books ordered by completed-order
count then view count descending, limited. -/
def get_global_trending_products (limit : Nat) (s : RecState) : List RecBook :=
  let rows := s.books.filter (fun b => decide (b.status = "online"))
  let withSales := rows.map (fun b => (salesCount b.book_id s, b))
  ((sortBy (fun a b =>
      decide (b.1 < a.1 ∨ (a.1 = b.1 ∧ b.2.view ≤ a.2.view))) withSales).take
    limit).map (fun e => e.2)

/-- `enrich_products_with_seller_info`: attach the seller's nickname/avatar
(placeholders only when the seller row is entirely missing) and drop the raw
seller id. -/
def enrich (l : List RecBook) (s : RecState) : List Enriched :=
  l.map (fun b =>
    match s.users.find? (fun u => decide (u.user_id = b.seller_ID)) with
    | some u =>
      { book_id := b.book_id, book_name := b.book_name, cover_img := b.cover_img
        price := b.price, seller_nickname := u.nickname, seller_avatar := u.avatar }
    | none =>
      { book_id := b.book_id, book_name := b.book_name, cover_img := b.cover_img
        price := b.price, seller_nickname := some "未知用户"
        seller_avatar := some "" })

/-- Deduplicating append without a quota (the same-school stage): append each
candidate whose `book_id` is not in `added` yet. -/
def addDedup (rs : List RecBook) (acc : List RecBook) (added : List Nat) :
    List RecBook × List Nat :=
  match rs with
  | [] => (acc, added)
  | r :: rest =>
    if r.book_id ∈ added then addDedup rest acc added
    else addDedup rest (acc ++ [r]) (added ++ [r.book_id])

/-- Deduplicating append with a slot quota (content/CF/trending stages):
append unseen candidates, decrementing `slots` and breaking once it reaches
zero. -/
def addQuota (rs : List RecBook) (acc : List RecBook) (added : List Nat)
    (slots : Int) : List RecBook × List Nat × Int :=
  match rs with
  | [] => (acc, added, slots)
  | r :: rest =>
    if r.book_id ∈ added then addQuota rest acc added slots
    else
      if slots - 1 ≤ 0 then (acc ++ [r], added ++ [r.book_id], slots - 1)
      else addQuota rest (acc ++ [r]) (added ++ [r.book_id]) (slots - 1)

/-- Same-school stage of the pipeline.  The 40% quota
`int(limit * 0.4)` equals `2 * limit / 5` for the admissible limits (the
route bounds `limit` to `[1, 50]`, where float truncation and exact floor
agree). -/
def schoolStage (user_id : Nat) (limit : Nat) (s : RecState)
    (st : List RecBook × List Nat) : List RecBook × List Nat :=
  match get_user_school_id user_id s with
  | some sid =>
    let school_recs_limit : Int :=
      min ((2 * limit / 5 : Nat) : Int) ((limit : Int) - st.1.length)
    if 0 < school_recs_limit then
      addDedup (get_school_popular_products sid school_recs_limit.toNat s) st.1 st.2
    else st
  | none => st

/-- Content-based stage of the pipeline. -/
def contentStage (user_id : Nat) (cutoff : Nat) (s : RecState)
    (st : List RecBook × List Nat × Int) : List RecBook × List Nat × Int :=
  if 0 < st.2.2 then
    let preferred := get_user_preferred_categories user_id cutoff s
    if preferred ≠ [] then
      addQuota (get_popular_products_in_categories preferred st.2.2.toNat
          (some user_id) s) st.1 st.2.1 st.2.2
    else st
  else st

/-- Collaborative-filtering stage of the pipeline. -/
def cfStage (user_id : Nat) (s : RecState)
    (st : List RecBook × List Nat × Int) : List RecBook × List Nat × Int :=
  if 0 < st.2.2 then
    addQuota (get_collaborative_filtering_recommendations user_id st.2.2.toNat s)
      st.1 st.2.1 st.2.2
  else st

/-- Global-trending fallback stage of the pipeline. -/
def trendingStage (s : RecState) (st : List RecBook × List Nat × Int) :
    List RecBook × List Nat × Int :=
  if 0 < st.2.2 then
    addQuota (get_global_trending_products st.2.2.toNat s) st.1 st.2.1 st.2.2
  else st

/-- `get_recommendations_for_user` (GET `/recommendations/for-you`):
validate the user, run the four strategies in order with shared
deduplication, truncate to `limit` and enrich with seller info. -/
def get_recommendations_for_user (user_id : Nat) (limit : Nat) (cutoff : Nat)
    (s : RecState) : Except ApiErr (List Enriched) :=
  if (s.users.find? (fun u => decide (u.user_id = user_id))).isNone then
    .error .NotFound
  else
    let st1 := schoolStage user_id limit s ([], [])
    let remaining_slots : Int := (limit : Int) - st1.1.length
    let st2 := contentStage user_id cutoff s (st1.1, st1.2, remaining_slots)
    let st3 := cfStage user_id s st2
    let st4 := trendingStage s st3
    .ok (enrich (st4.1.take limit) s)

/-! ## Concrete fixtures used by witnesses and counterexamples -/

/-- A product with stock 3 and price 20.00 (the spec's example scenario). -/
def prod0 : OrderBook :=
  { book_id := 1, seller_ID := 9, price := 20, stock := 3, status := 1, update_time := 0 }

/-- Order-module state holding just `prod0`. -/
def s0 : OrderState := { books := [prod0], orders := [], next_order_id := 1 }

/-- A self-pickup order request for two copies of `prod0` by buyer 7. -/
def req0 : CreateOrderRequest :=
  { product_id := 1, buyer_id := 7, quantity := 2, fulfillment_type := "self_pickup"
    pickup_location_id := some 5 }

/-- A pre-existing order that already carries the order number
`create_order` will generate for `req0` at `nowStr = "20250101120000"`
(same UTC second, same buyer-id suffix). -/
def collidingOrder : OrderRow :=
  { order_id := 77, order_no := "202501011200000007", buyer_id := 2507, seller_id := 9
    product_id := 1, quantity := 1, total_amount := 20
    fulfillment_type := "self_pickup", pickup_location_id := some 5
    receiver_name := none, receiver_phone := none, receiver_address := none
    remark := none, status := "pending_pay", logistics_no := none
    create_time := 10, update_time := 10 }

/-- Order-module state in which `collidingOrder` is already persisted. -/
def s8 : OrderState := { books := [prod0], orders := [collidingOrder], next_order_id := 100 }

/-- A concurrent interference that silently drains all stock between the
order insert and the conditional decrement. -/
def interfereZero : OrderState → OrderState :=
  fun st => { st with books := st.books.map (fun b => { b with stock := 0 }) }

/-- A completed (terminal) order between buyer 3 and seller 4. -/
def completedOrder : OrderRow :=
  { order_id := 1, order_no := "n1", buyer_id := 3, seller_id := 4, product_id := 1
    quantity := 1, total_amount := 5, fulfillment_type := "self_pickup"
    pickup_location_id := some 1, receiver_name := none, receiver_phone := none
    receiver_address := none, remark := none, status := "completed"
    logistics_no := none, create_time := 0, update_time := 0 }

/-- A pending-pay order between buyer 3 and seller 4. -/
def pendingOrder : OrderRow := { completedOrder with order_id := 2, status := "pending_pay" }

/-- Order-module state with one completed and one pending-pay order. -/
def sU : OrderState := { books := [], orders := [completedOrder, pendingOrder], next_order_id := 3 }

/-- Request moving the completed order back to `pending_pay`, by its buyer. -/
def reqBad : UpdateOrderStatusRequest := { order_id := 1, status := "pending_pay", operator_id := 3 }

/-- Request cancelling the pending-pay order, by its buyer. -/
def reqGood : UpdateOrderStatusRequest := { order_id := 2, status := "cancelled", operator_id := 3 }

/-- Book-module state: one book owned by seller 1. -/
def bs0 : BookState :=
  { books := [{ book_id := 1, book_name := "x", price := 3, stock := 7, status := 1,
                seller_ID := 1, update_time := 0 }] }

/-- Review-module state: a completed order by buyer 2 with seller 3, no
review yet. -/
def rs0 : ReviewState :=
  { orders := [{ order_id := 1, buyer_id := 2, seller_id := 3, product_id := 4,
                 status := "completed" }]
    reviews := []
    users := [{ user_id := 3, avg_rating := 5, review_count := 0, update_time := 0 }]
    next_review_id := 1 }

/-- An existing review for order 1. -/
def rev1 : Review :=
  { id := 1, order_id := 1, reviewer_id := 2, seller_id := 3, product_id := 4
    rating := 4, content := some "hi", img_urls := none, create_time := 10, update_time := 10 }

/-- Review-module state in which order 1 is already reviewed. -/
def rs1 : ReviewState := { rs0 with reviews := [rev1], next_review_id := 2 }

/-- A 501-character review text. -/
def longContent : String := String.mk (List.replicate 501 'a')

/-- A review request for order 1 carrying the 501-character text. -/
def reqLong : CreateReviewRequest :=
  { order_id := 1, rating := 5, content := some longContent, reviewer_id := 2 }

/-- A second review attempt for the already-reviewed order 1. -/
def reqAgain : CreateReviewRequest :=
  { order_id := 1, rating := 1, content := some "again", reviewer_id := 2 }

/-- Recommendation-module state for the collaborative-filtering
counterexample: user 1 (no school, no in-window history) and user 2 both
completed an order for book 1; user 2 also completed an order for book 2,
which is offline (`status = "offline"`) and out of stock (`stock = 0`). -/
def recS : RecState :=
  { books := [
      { book_id := 1, book_name := "A", cover_img := "", price := 10, seller_ID := 3,
        view := 5, status := "online", stock := 5, category_id := 1 },
      { book_id := 2, book_name := "B", cover_img := "", price := 7, seller_ID := 3,
        view := 9, status := "offline", stock := 0, category_id := 1 }]
    users := [
      { user_id := 1, school_id := none, nickname := some "n1", avatar := some "a1" },
      { user_id := 2, school_id := none, nickname := none, avatar := none }]
    orders := [
      { order_id := 1, buyer_id := 1, product_id := 1, status := "completed", create_time := 0 },
      { order_id := 2, buyer_id := 2, product_id := 1, status := "completed", create_time := 0 },
      { order_id := 3, buyer_id := 2, product_id := 2, status := "completed", create_time := 0 }]
    reviews := [] }

/-- The enriched output rows `get_recommendations_for_user 1 10 100 recS`
produces (book 2 first, via collaborative filtering). -/
def eB : Enriched :=
  { book_id := 2, book_name := "B", cover_img := "", price := 7
    seller_nickname := some "未知用户", seller_avatar := some "" }

/-- The enriched output row for book 1 (via the trending fallback). -/
def eA : Enriched :=
  { book_id := 1, book_name := "A", cover_img := "", price := 10
    seller_nickname := some "未知用户", seller_avatar := some "" }

/-- An on-sale book listed by seller 3. -/
def bOnline : RecBook :=
  { book_id := 1, book_name := "A", cover_img := "", price := 10, seller_ID := 3,
    view := 5, status := "online", stock := 5, category_id := 1 }

/-- Recommendation-module state where seller 3 is at school 7 and sells the
on-sale book `bOnline`. -/
def recS2 : RecState :=
  { books := [bOnline]
    users := [{ user_id := 3, school_id := some 7, nickname := some "s", avatar := none }]
    orders := []
    reviews := [] }

/-- Invariant of the candidate-accumulation stages: the dedup set is exactly
the ids of the accumulated candidates, without duplicates. -/
def InvP (st : List RecBook × List Nat) : Prop :=
  st.2 = st.1.map (fun b => b.book_id) ∧ st.2.Nodup

/-- The same invariant on the quota-carrying stage state. -/
def InvQ (st : List RecBook × List Nat × Int) : Prop :=
  InvP (st.1, st.2.1)

/-! ## Theorems -/

/-- Claim C4, counterexample: in a state whose only book is owned by seller 1,
an `update_book` call made by user 2 — who is not the seller — succeeds and
changes the book's price.  The route carries no operator identity at all, so
the non-seller's request is processed exactly like the seller's and is not
rejected, contradicting the claim that mutation requires a seller-id match. -/
theorem update_book_non_seller_mutation_succeeds :
    bs0.books = [{ book_id := 1, book_name := "x", price := 3, stock := 7, status := 1,
                   seller_ID := 1, update_time := 0 }] ∧
    (2 : Nat) ≠ 1 ∧
    update_book_as 2 1 none (some 5) none none 99 bs0 =
      (Except.ok (),
       { books := [{ book_id := 1, book_name := "x", price := 5, stock := 7, status := 1,
                     seller_ID := 1, update_time := 99 }] }) := by
  refine ⟨rfl, by decide, by decide⟩

/-- Claim C4, amended: `update_book` enforces no ownership check whatsoever —
the request carries no operator identity, and every call succeeds (the
`update_fields` emptiness rejection is unreachable because `update_time` is
always appended), so any caller, seller or not, can mutate any book. -/
theorem update_book_never_rejects (caller : Nat) (book_id : Nat)
    (book_name : Option String) (price : Option Rat) (stock : Option Int)
    (status : Option Int) (now : Nat) (s : BookState) :
    (update_book_as caller book_id book_name price stock status now s).1 =
      Except.ok () := by
  simp only [update_book_as, update_book]
  rw [if_neg]
  simp [List.append_eq_nil]

/-- Claim C9: a falsy field value (`None`, `0`, `0.0`, `""`) supplied to
`update_book` is silently treated as absent — the corresponding column keeps
its old value, only `update_time` changes, and the request still succeeds; in
particular stock cannot be set to 0 and status cannot be set to off-sale (0)
through this endpoint. -/
theorem update_book_falsy_fields_ignored (book_id : Nat) (book_name : Option String)
    (price : Option Rat) (stock : Option Int) (status : Option Int) (now : Nat)
    (s : BookState)
    (hn : truthyOptStr book_name = false) (hp : truthyOptRat price = false)
    (hs : truthyOptInt stock = false) (hst : truthyOptInt status = false) :
    (update_book book_id book_name price stock status now s).1 = Except.ok () ∧
    (update_book book_id book_name price stock status now s).2.books =
      s.books.map (fun b =>
        if b.book_id = book_id then { b with update_time := now } else b) := by
  simp [update_book, hn, hp, hs, hst]

/-- Witness for C9: sending `book_name=""`, `price=0.0`, `stock=0`, `status=0`
to the book of `bs0` succeeds and changes only `update_time`. -/
theorem update_book_falsy_fields_ignored_witness :
    (update_book 1 (some "") (some 0) (some 0) (some 0) 99 bs0).1 = Except.ok () ∧
    (update_book 1 (some "") (some 0) (some 0) (some 0) 99 bs0).2.books =
      bs0.books.map (fun b =>
        if b.book_id = 1 then { b with update_time := 99 } else b) :=
  update_book_falsy_fields_ignored 1 (some "") (some 0) (some 0) (some 0) 99 bs0
    (by decide) (by decide) (by decide) (by decide)

/-- `(t + ps - 1) / ps` on naturals is the ceiling of the exact division. -/
lemma natCeilDiv_eq (t ps : Nat) (hps : 0 < ps) :
    ⌈(t : ℚ) / (ps : ℚ)⌉ = (((t + ps - 1) / ps : Nat) : Int) := by
  have hps' : (0 : ℚ) < (ps : ℚ) := by exact_mod_cast hps
  set q := (t + ps - 1) / ps with hq
  have hdm := Nat.div_add_mod (t + ps - 1) ps
  have hlt := Nat.mod_lt (t + ps - 1) hps
  rw [← hq] at hdm
  obtain ⟨m, hm⟩ : ∃ m, ps * q = m := ⟨_, rfl⟩
  rw [hm] at hdm
  have h1 : t ≤ m := by omega
  have h2 : m < t + ps := by omega
  have hqQ : (ps : ℚ) * (q : ℚ) = (m : ℚ) := by exact_mod_cast hm
  apply le_antisymm
  · rw [Int.ceil_le]
    push_cast
    rw [div_le_iff hps']
    have htQ : (t : ℚ) ≤ (m : ℚ) := by exact_mod_cast h1
    nlinarith [hqQ, htQ]
  · have hstep : ((q : Int) - 1) < ⌈(t : ℚ) / (ps : ℚ)⌉ := by
      rw [Int.lt_ceil]
      rw [lt_div_iff hps']
      have h2Q : (m : ℚ) < (t : ℚ) + (ps : ℚ) := by exact_mod_cast h2
      push_cast
      nlinarith [hqQ, h2Q]
    omega

/-- Integer version of `natCeilDiv_eq` for a positive divisor. -/
lemma intCeilDiv_eq (t : Nat) (k : Int) (hk : 1 ≤ k) :
    ((t : Int) + k - 1) / k = ⌈(t : ℚ) / (k : ℚ)⌉ := by
  have hk0 : ((k.toNat : Nat) : Int) = k := Int.toNat_of_nonneg (by omega)
  have hpos : 0 < k.toNat := by omega
  rw [← hk0]
  have hnum : (t : Int) + ((k.toNat : Nat) : Int) - 1 = ((t + k.toNat - 1 : Nat) : Int) := by
    omega
  rw [hnum, ← Int.natCast_div, Int.cast_natCast, natCeilDiv_eq t k.toNat hpos]

/-- Claim C5: `execute_query_paginated` reports `total` equal to the base
query's row count and `total_pages = ceil(total / page_size)` (with respect to
the effective page size); an out-of-range `page_size` is silently replaced by
the default 10 and a `page < 1` by 1 instead of erroring; and against a 25-row
result set with `page = 2`, `page_size = 10` it returns exactly 10 rows,
`total = 25`, `total_pages = 3`. -/
theorem paginated_query_spec {α : Type} (rows : List α) (p ps : Int) :
    (execute_query_paginated rows p ps).total = rows.length ∧
    (execute_query_paginated rows p ps).page_size =
      (if ps < 1 ∨ 100 < ps then 10 else ps) ∧
    (execute_query_paginated rows p ps).page = (if p < 1 then 1 else p) ∧
    (execute_query_paginated rows p ps).total_pages =
      ⌈(rows.length : ℚ) / ((((if ps < 1 ∨ 100 < ps then 10 else ps) : Int)) : ℚ)⌉ ∧
    (rows.length = 25 → p = 2 → ps = 10 →
      (execute_query_paginated rows p ps).data.length = 10 ∧
      (execute_query_paginated rows p ps).total = 25 ∧
      (execute_query_paginated rows p ps).total_pages = 3) := by
  have hk : 1 ≤ (if ps < 1 ∨ 100 < ps then (10 : Int) else ps) := by
    split <;> omega
  refine ⟨rfl, rfl, rfl, intCeilDiv_eq rows.length _ hk, ?_⟩
  intro h25 hp hps
  subst hp
  subst hps
  refine ⟨?_, h25, ?_⟩
  · simp [execute_query_paginated, List.length_take, List.length_drop, h25]
  · simp [execute_query_paginated, h25]

/-- Witness for C5: the 25-row scenario at `page = 2`, `page_size = 10`. -/
theorem paginated_query_spec_witness :
    (execute_query_paginated (List.range 25) 2 10).data.length = 10 ∧
    (execute_query_paginated (List.range 25) 2 10).total = 25 ∧
    (execute_query_paginated (List.range 25) 2 10).total_pages = 3 :=
  (paginated_query_spec (List.range 25) 2 10).2.2.2.2 (by simp) rfl rfl

/-- Claim C1: `update_order_status` accepts a requested status only along an
edge of the fixed transition table (first conjunct: a successful call implies
the requested status is in the current status's allowed set), and for an
existing order whose buyer or seller requests any off-table edge the call
fails with `InvalidTransition` and leaves the state — in particular the
order's status — unchanged (second conjunct). -/
theorem order_status_moves_only_along_transition_table :
    (∀ (s : OrderState) (req : UpdateOrderStatusRequest) (now : Nat) r s',
        update_order_status req now s = (Except.ok r, s') →
        ∃ o, s.orders.find? (fun o' => decide (o'.order_id = req.order_id)) = some o ∧
          ∃ allowed, valid_transitions o.status = some allowed ∧ req.status ∈ allowed) ∧
    (∀ (s : OrderState) (req : UpdateOrderStatusRequest) (now : Nat) o allowed,
        s.orders.find? (fun o' => decide (o'.order_id = req.order_id)) = some o →
        (req.operator_id = o.buyer_id ∨ req.operator_id = o.seller_id) →
        valid_transitions o.status = some allowed →
        req.status ∉ allowed →
        update_order_status req now s = (Except.error ApiErr.InvalidTransition, s)) := by
  constructor
  · intro s req now r s' h
    unfold update_order_status at h
    split at h
    · simp at h
    · rename_i o hfind
      split at h
      · simp at h
      · split at h
        · simp at h
        · rename_i allowed htab
          split at h
          · simp at h
          · rename_i hmem
            exact ⟨o, hfind, allowed, htab, not_not.mp hmem⟩
  · intro s req now o allowed hfind hop htab hbad
    have hop' : ¬(req.operator_id ≠ o.buyer_id ∧ req.operator_id ≠ o.seller_id) := by
      tauto
    simp [update_order_status, hfind, hop', htab, hbad]

/-- Witness for C1: moving the completed order of `sU` back to `pending_pay`
(requested by its buyer) fails with `InvalidTransition` and leaves the state
unchanged, while the accepted cancellation of the pending-pay order
exhibits an edge of the table. -/
theorem order_status_transition_table_witness :
    update_order_status reqBad 5 sU = (Except.error ApiErr.InvalidTransition, sU) ∧
    ∃ o, sU.orders.find? (fun o' => decide (o'.order_id = reqGood.order_id)) = some o ∧
      ∃ allowed, valid_transitions o.status = some allowed ∧ reqGood.status ∈ allowed :=
  ⟨order_status_moves_only_along_transition_table.2 sU reqBad 5 completedOrder []
      (by decide) (Or.inl (by decide)) (by decide) (by decide),
   order_status_moves_only_along_transition_table.1 sU reqGood 5 ()
      (update_order_status reqGood 5 sU).2 (by decide)⟩

/-- Claim C2: a `create_order` request for an existing, on-sale product whose
quantity exceeds the available stock — whether detected at the initial read
(`stock < quantity`) or at the conditional decrement (the guarded `UPDATE`
affects zero rows, e.g. after a concurrent purchase) — fails with
`InsufficientStock`, and afterwards no order row carrying this request's
order number remains persisted (the write-time path deletes the
just-inserted row as a compensating action; the read-time path never inserts
one). -/
theorem create_order_insufficient_stock_fails_clean (req : CreateOrderRequest)
    (nowStr : String) (now : Nat) (interfere : OrderState → OrderState)
    (s : OrderState) (product : OrderBook)
    (hfind : s.books.find? (fun b => decide (b.book_id = req.product_id)) = some product)
    (hstat : product.status = 1)
    (hfresh : ∀ o ∈ s.orders, o.order_no ≠ genOrderNo nowStr req.buyer_id)
    (hfail : product.stock < req.quantity ∨
      (req.quantity ≤ product.stock ∧
       (req.fulfillment_type = "self_pickup" → truthyOptInt req.pickup_location_id) ∧
       (req.fulfillment_type = "logistics" →
         truthyOptStr req.receiver_name ∧ truthyOptStr req.receiver_phone ∧
         truthyOptStr req.receiver_address) ∧
       (interfere (afterInsert req product nowStr now s)).books.countP
         (stockCond req) = 0)) :
    (create_order req nowStr now interfere s).1 = Except.error ApiErr.InsufficientStock ∧
    ∀ o ∈ (create_order req nowStr now interfere s).2.orders,
      o.order_no ≠ genOrderNo nowStr req.buyer_id := by
  rcases hfail with hlt | ⟨hge, hpick, hlog, hzero⟩
  · have h : create_order req nowStr now interfere s =
        (Except.error ApiErr.InsufficientStock, s) := by
      simp [create_order, hfind, hstat, hlt]
    rw [h]
    exact ⟨rfl, hfresh⟩
  · have hnlt : ¬ product.stock < req.quantity := not_lt.mpr hge
    have hpickN : ¬ (req.fulfillment_type = "self_pickup" ∧
        truthyOptInt req.pickup_location_id = false) := by
      rintro ⟨h1, h2⟩
      exact absurd h2 (by simp [hpick h1])
    have hlogN : ¬ (req.fulfillment_type = "logistics" ∧
        (truthyOptStr req.receiver_name = true → truthyOptStr req.receiver_phone = true →
          truthyOptStr req.receiver_address = false)) := by
      rintro ⟨h1, h2⟩
      obtain ⟨a, b, c⟩ := hlog h1
      exact absurd (h2 a b) (by simp [c])
    have h : create_order req nowStr now interfere s =
        (Except.error ApiErr.InsufficientStock,
         { interfere (afterInsert req product nowStr now s) with
             orders := (interfere (afterInsert req product nowStr now s)).orders.filter
               (fun o => o.order_no ≠ genOrderNo nowStr req.buyer_id) }) := by
      simp [create_order, hfind, hstat, hnlt, hpickN, hlogN, hzero]
    rw [h]
    refine ⟨rfl, ?_⟩
    intro o ho
    have := List.of_mem_filter ho
    simpa using this

/-- Witness for C2: ordering quantity 5 of `prod0` (stock 3) fails with
`InsufficientStock` and leaves no order row behind. -/
theorem create_order_insufficient_stock_witness :
    (create_order { req0 with quantity := 5 } "20250101120000" 10 id s0).1 =
      Except.error ApiErr.InsufficientStock ∧
    ∀ o ∈ (create_order { req0 with quantity := 5 } "20250101120000" 10 id s0).2.orders,
      o.order_no ≠ genOrderNo "20250101120000" ({ req0 with quantity := 5 }).buyer_id :=
  create_order_insufficient_stock_fails_clean _ _ _ _ _ prod0 (by decide) (by decide)
    (by decide) (Or.inl (by decide))

/-- Claim C7: a `create_order` request for an on-sale product with sufficient
stock and valid fulfillment fields succeeds (sequential execution):
the returned payload carries `total_amount = price × quantity` (no rounding
or discount) and status `pending_pay`; the order row is persisted with status
`pending_pay`; and the product's stock is decremented by the quantity. -/
theorem create_order_success (req : CreateOrderRequest) (nowStr : String)
    (now : Nat) (s : OrderState) (product : OrderBook)
    (hfind : s.books.find? (fun b => decide (b.book_id = req.product_id)) = some product)
    (hstat : product.status = 1)
    (hge : req.quantity ≤ product.stock)
    (hpick : req.fulfillment_type = "self_pickup" → truthyOptInt req.pickup_location_id)
    (hlog : req.fulfillment_type = "logistics" →
      truthyOptStr req.receiver_name ∧ truthyOptStr req.receiver_phone ∧
      truthyOptStr req.receiver_address) :
    (create_order req nowStr now id s).1 =
      Except.ok { order_id := s.next_order_id
                  order_no := genOrderNo nowStr req.buyer_id
                  total_amount := product.price * (req.quantity : Rat)
                  status := "pending_pay" } ∧
    (create_order req nowStr now id s).2.orders =
      s.orders ++ [newOrderRow req product nowStr now s] ∧
    (newOrderRow req product nowStr now s).status = "pending_pay" ∧
    ∃ b ∈ (create_order req nowStr now id s).2.books,
      b.book_id = req.product_id ∧ b.stock = product.stock - req.quantity := by
  have hnlt : ¬ product.stock < req.quantity := not_lt.mpr hge
  have hpickN : ¬ (req.fulfillment_type = "self_pickup" ∧
      truthyOptInt req.pickup_location_id = false) := by
    rintro ⟨h1, h2⟩
    exact absurd h2 (by simp [hpick h1])
  have hlogN : ¬ (req.fulfillment_type = "logistics" ∧
      (truthyOptStr req.receiver_name = true → truthyOptStr req.receiver_phone = true →
        truthyOptStr req.receiver_address = false)) := by
    rintro ⟨h1, h2⟩
    obtain ⟨a, b, c⟩ := hlog h1
    exact absurd (h2 a b) (by simp [c])
  have hps := List.find?_some hfind
  simp only [decide_eq_true_eq] at hps
  have hcond : stockCond req product = true := by
    simp only [stockCond, decide_eq_true_eq]
    exact ⟨hps, hge⟩
  have hmem : product ∈ s.books := List.mem_of_find?_eq_some hfind
  have hpos : (afterInsert req product nowStr now s).books.countP (stockCond req) ≠ 0 := by
    have : 0 < s.books.countP (stockCond req) :=
      List.countP_pos.mpr ⟨product, hmem, hcond⟩
    simpa [afterInsert] using Nat.pos_iff_ne_zero.mp this
  have h : create_order req nowStr now id s =
      (Except.ok { order_id := s.next_order_id
                   order_no := genOrderNo nowStr req.buyer_id
                   total_amount := product.price * (req.quantity : Rat)
                   status := "pending_pay" },
       { afterInsert req product nowStr now s with
           books := (afterInsert req product nowStr now s).books.map (fun b =>
             if stockCond req b then
               { b with stock := b.stock - req.quantity, update_time := now }
             else b) }) := by
    simp [create_order, hfind, hstat, hnlt, hpickN, hlogN, hpos]
  rw [h]
  refine ⟨rfl, rfl, rfl, ?_⟩
  refine ⟨{ product with stock := product.stock - req.quantity, update_time := now }, ?_, ?_, rfl⟩
  · simp only [afterInsert]
    have hmap := List.mem_map_of_mem (fun b =>
      if stockCond req b then
        { b with stock := b.stock - req.quantity, update_time := now }
      else b) hmem
    simpa [hcond] using hmap
  · exact hps

/-- Witness for C7: the spec's example — stock 3, price 20.00, quantity 2
gives `total_amount = 40.00`, a persisted `pending_pay` order, and stock 1. -/
theorem create_order_success_witness :
    (create_order req0 "20250101120000" 10 id s0).1 =
      Except.ok { order_id := s0.next_order_id
                  order_no := genOrderNo "20250101120000" req0.buyer_id
                  total_amount := prod0.price * (req0.quantity : Rat)
                  status := "pending_pay" } ∧
    (create_order req0 "20250101120000" 10 id s0).2.orders =
      s0.orders ++ [newOrderRow req0 prod0 "20250101120000" 10 s0] ∧
    (newOrderRow req0 prod0 "20250101120000" 10 s0).status = "pending_pay" ∧
    ∃ b ∈ (create_order req0 "20250101120000" 10 id s0).2.books,
      b.book_id = req0.product_id ∧ b.stock = prod0.stock - req0.quantity :=
  create_order_success req0 "20250101120000" 10 s0 prod0 (by decide) (by decide)
    (by decide) (by decide) (by decide)

/-- Claim C8: when the conditional stock decrement affects zero rows, the
compensating delete removes orders by the generated order number, not by the
inserted row's id — every persisted order carrying that number is deleted
(and the insert itself never checks the number for collisions, so a colliding
pre-existing order is deleted too). -/
theorem create_order_compensation_deletes_by_order_no (req : CreateOrderRequest)
    (nowStr : String) (now : Nat) (interfere : OrderState → OrderState)
    (s : OrderState) (product : OrderBook)
    (hfind : s.books.find? (fun b => decide (b.book_id = req.product_id)) = some product)
    (hstat : product.status = 1)
    (hge : req.quantity ≤ product.stock)
    (hpick : req.fulfillment_type = "self_pickup" → truthyOptInt req.pickup_location_id)
    (hlog : req.fulfillment_type = "logistics" →
      truthyOptStr req.receiver_name ∧ truthyOptStr req.receiver_phone ∧
      truthyOptStr req.receiver_address)
    (hzero : (interfere (afterInsert req product nowStr now s)).books.countP
      (stockCond req) = 0) :
    (afterInsert req product nowStr now s).orders =
      s.orders ++ [newOrderRow req product nowStr now s] ∧
    (create_order req nowStr now interfere s).2.orders =
      (interfere (afterInsert req product nowStr now s)).orders.filter
        (fun o => o.order_no ≠ genOrderNo nowStr req.buyer_id) := by
  have hnlt : ¬ product.stock < req.quantity := not_lt.mpr hge
  have hpickN : ¬ (req.fulfillment_type = "self_pickup" ∧
      truthyOptInt req.pickup_location_id = false) := by
    rintro ⟨h1, h2⟩
    exact absurd h2 (by simp [hpick h1])
  have hlogN : ¬ (req.fulfillment_type = "logistics" ∧
      (truthyOptStr req.receiver_name = true → truthyOptStr req.receiver_phone = true →
        truthyOptStr req.receiver_address = false)) := by
    rintro ⟨h1, h2⟩
    obtain ⟨a, b, c⟩ := hlog h1
    exact absurd (h2 a b) (by simp [c])
  refine ⟨rfl, ?_⟩
  have h : create_order req nowStr now interfere s =
      (Except.error ApiErr.InsufficientStock,
       { interfere (afterInsert req product nowStr now s) with
           orders := (interfere (afterInsert req product nowStr now s)).orders.filter
             (fun o => o.order_no ≠ genOrderNo nowStr req.buyer_id) }) := by
    simp [create_order, hfind, hstat, hnlt, hpickN, hlogN, hzero]
  rw [h]

/-- Witness for C8: in `s8` a pre-existing order already carries the order
number generated for `req0`; after the interference drains the stock, the
compensating delete removes both that order and the just-inserted one —
the persisted order list becomes empty although only one of the two rows
belonged to the failing request. -/
theorem create_order_compensation_witness :
    (afterInsert req0 prod0 "20250101120000" 10 s8).orders =
      s8.orders ++ [newOrderRow req0 prod0 "20250101120000" 10 s8] ∧
    (create_order req0 "20250101120000" 10 interfereZero s8).2.orders =
      (interfereZero (afterInsert req0 prod0 "20250101120000" 10 s8)).orders.filter
        (fun o => o.order_no ≠ genOrderNo "20250101120000" req0.buyer_id) ∧
    s8.orders = [collidingOrder] ∧
    collidingOrder.order_no = genOrderNo "20250101120000" req0.buyer_id ∧
    (create_order req0 "20250101120000" 10 interfereZero s8).2.orders = [] :=
  have h := create_order_compensation_deletes_by_order_no req0 "20250101120000" 10
    interfereZero s8 prod0 (by decide) (by decide) (by decide) (by decide) (by decide)
    (by decide)
  ⟨h.1, h.2, by decide, by decide, by decide⟩

/-- Claim C6: once a review referencing an order exists, every later
`create_review` attempt for that order leaves the state unchanged (nothing is
inserted, no seller aggregate moves) and fails; when the attempt comes from
the order's buyer and the order is completed (the only payload that passes
the earlier checks), the failure is specifically `DuplicateReview` —
regardless of rating, text or images. -/
theorem create_review_at_most_once_per_order (s : ReviewState)
    (req : CreateReviewRequest) (now : Nat)
    (hprior : ∃ r ∈ s.reviews, r.order_id = req.order_id) :
    (create_review req now s).2 = s ∧
    (∀ v, (create_review req now s).1 ≠ Except.ok v) ∧
    (∀ o, s.orders.find? (fun o' =>
        decide (o'.order_id = req.order_id) && decide (o'.buyer_id = req.reviewer_id)) =
          some o →
      o.status = "completed" →
      (create_review req now s).1 = Except.error ApiErr.DuplicateReview) := by
  rcases hfindo : s.orders.find? (fun o' =>
      decide (o'.order_id = req.order_id) && decide (o'.buyer_id = req.reviewer_id))
    with _ | o
  · have h : create_review req now s = (Except.error ApiErr.NotFound, s) := by
      simp [create_review, hfindo]
    rw [h]
    refine ⟨rfl, by simp, ?_⟩
    intro o ho
    rw [ho] at hfindo
    cases hfindo
  · by_cases hst : o.status = "completed"
    · have h : create_review req now s = (Except.error ApiErr.DuplicateReview, s) := by
        simp [create_review, hfindo, hst, hprior]
      rw [h]
      exact ⟨rfl, by simp, fun _ _ _ => rfl⟩
    · have h : create_review req now s = (Except.error ApiErr.InvalidState, s) := by
        simp [create_review, hfindo, hst]
      rw [h]
      refine ⟨rfl, by simp, ?_⟩
      intro o' ho' hsc
      rw [ho'] at hfindo
      cases hfindo
      exact absurd hsc hst

/-- Witness for C6: with `rev1` already persisted for order 1, the buyer's
second attempt fails with `DuplicateReview` and changes nothing. -/
theorem create_review_at_most_once_witness :
    (create_review reqAgain 50 rs1).2 = rs1 ∧
    (∀ v, (create_review reqAgain 50 rs1).1 ≠ Except.ok v) ∧
    (∀ o, rs1.orders.find? (fun o' => decide (o'.order_id = reqAgain.order_id) &&
        decide (o'.buyer_id = reqAgain.reviewer_id)) = some o →
      o.status = "completed" →
      (create_review reqAgain 50 rs1).1 = Except.error ApiErr.DuplicateReview) :=
  create_review_at_most_once_per_order rs1 reqAgain 50 (by decide)

/-- Claim C10: `create_review` does not reject text longer than 500
characters; an accepted review with over-long content succeeds and persists
the content silently truncated to its first 500 characters. -/
theorem create_review_truncates_long_content (s : ReviewState)
    (req : CreateReviewRequest) (now : Nat) (o : RevOrder) (c : String)
    (hfind : s.orders.find? (fun o' =>
      decide (o'.order_id = req.order_id) && decide (o'.buyer_id = req.reviewer_id)) =
        some o)
    (hst : o.status = "completed")
    (hnodup : s.reviews.find? (fun r => decide (r.order_id = req.order_id)) = none)
    (himg : ¬ (truthyOptList req.img_urls = true ∧ 3 < (req.img_urls.getD []).length))
    (hc : req.content = some c) (hlen : 500 < c.length) :
    (∃ v, (create_review req now s).1 = Except.ok v) ∧
    ∃ r ∈ (create_review req now s).2.reviews,
      r.order_id = req.order_id ∧ r.content = some (c.take 500) := by
  have hne : c ≠ "" := by
    intro h
    rw [h] at hlen
    simp at hlen
  have hnd : ¬ ∃ x ∈ s.reviews, x.order_id = req.order_id := by
    rw [List.find?_eq_none] at hnodup
    rintro ⟨x, hx, hid⟩
    have := hnodup x hx
    simp [hid] at this
  have h2 : (create_review req now s).2.reviews =
      s.reviews ++ [{ id := s.next_review_id, order_id := req.order_id
                      reviewer_id := req.reviewer_id, seller_id := o.seller_id
                      product_id := o.product_id, rating := req.rating
                      content := some (c.take 500)
                      img_urls :=
                        if truthyOptList req.img_urls = true then
                          some (String.intercalate "," (req.img_urls.getD []))
                        else none
                      create_time := now, update_time := now }] := by
    simp [create_review, hfind, hst, hnd, himg, hc, hne]
  have h1 : ∃ v, (create_review req now s).1 = Except.ok v := by
    refine ⟨(s.next_review_id, ?_), ?_⟩
    · exact
        if truthyOptRat (sellerAvgRating o.seller_id ((create_review req now s).2.reviews))
        then round1 ((sellerAvgRating o.seller_id
          ((create_review req now s).2.reviews)).getD 0)
        else 5
    · rw [h2]
      simp [create_review, hfind, hst, hnd, himg, hc, hne]
  refine ⟨h1, ?_⟩
  rw [h2]
  exact ⟨_, List.mem_append_right _ (List.mem_singleton_self _), rfl, rfl⟩

set_option maxRecDepth 8000 in
/-- Witness for C10: a 501-character review text is accepted on the completed
order of `rs0` and stored as its first 500 characters. -/
theorem create_review_truncates_witness :
    (∃ v, (create_review reqLong 50 rs0).1 = Except.ok v) ∧
    ∃ r ∈ (create_review reqLong 50 rs0).2.reviews,
      r.order_id = reqLong.order_id ∧ r.content = some (longContent.take 500) :=
  create_review_truncates_long_content rs0 reqLong 50
    { order_id := 1, buyer_id := 2, seller_id := 3, product_id := 4, status := "completed" }
    longContent (by decide) (by decide) (by decide) (by decide) (by decide) (by decide)

/-- Membership is preserved by `sortInsert`. -/
lemma mem_sortInsert {α : Type} (le : α → α → Bool) (x y : α) (l : List α) :
    y ∈ sortInsert le x l ↔ y = x ∨ y ∈ l := by
  induction l with
  | nil => simp [sortInsert]
  | cons a as ih =>
    simp only [sortInsert]
    split
    · simp [List.mem_cons]
    · simp only [List.mem_cons, ih]
      tauto

/-- Membership is preserved by `sortBy` (the `ORDER BY` model). -/
lemma mem_sortBy {α : Type} (le : α → α → Bool) (x : α) (l : List α) :
    x ∈ sortBy le l ↔ x ∈ l := by
  induction l with
  | nil => simp [sortBy]
  | cons a as ih => simp [sortBy, mem_sortInsert, ih]

/-- `addDedup` preserves the accumulation invariant. -/
lemma addDedup_inv (rs : List RecBook) (acc : List RecBook) (added : List Nat)
    (h : InvP (acc, added)) : InvP (addDedup rs acc added) := by
  induction rs generalizing acc added with
  | nil => simpa [addDedup] using h
  | cons r rest ih =>
    obtain ⟨h1, h2⟩ := h
    simp only [addDedup]
    split
    · exact ih acc added ⟨h1, h2⟩
    · rename_i hnotin
      refine ih _ _ ⟨?_, ?_⟩
      · simp only [List.map_append, List.map_cons, List.map_nil]
        rw [← h1]
      · simp only [List.nodup_append, List.nodup_cons, List.nodup_nil]
        refine ⟨h2, by simp, ?_⟩
        intro a ha hb
        simp only [List.mem_singleton] at hb
        subst hb
        exact hnotin ha

/-- `addQuota` preserves the accumulation invariant. -/
lemma addQuota_inv (rs : List RecBook) (acc : List RecBook) (added : List Nat)
    (slots : Int) (h : InvP (acc, added)) : InvQ (addQuota rs acc added slots) := by
  induction rs generalizing acc added slots with
  | nil => simpa [addQuota, InvQ] using h
  | cons r rest ih =>
    obtain ⟨h1, h2⟩ := h
    have hstep : InvP (acc ++ [r], added ++ [r.book_id]) → True := fun _ => trivial
    simp only [addQuota]
    split
    · exact ih acc added slots ⟨h1, h2⟩
    · rename_i hnotin
      have hinv' : InvP (acc ++ [r], added ++ [r.book_id]) := by
        refine ⟨?_, ?_⟩
        · simp only [List.map_append, List.map_cons, List.map_nil]
          rw [← h1]
        · simp only [List.nodup_append, List.nodup_cons, List.nodup_nil]
          refine ⟨h2, by simp, ?_⟩
          intro a ha hb
          simp only [List.mem_singleton] at hb
          subst hb
          exact hnotin ha
      split
      · exact hinv'
      · exact ih _ _ _ hinv'

/-- The same-school stage preserves the accumulation invariant. -/
lemma schoolStage_inv (user_id limit : Nat) (s : RecState)
    (st : List RecBook × List Nat) (h : InvP st) :
    InvP (schoolStage user_id limit s st) := by
  unfold schoolStage
  split
  · dsimp only
    split
    · exact addDedup_inv _ _ _ h
    · exact h
  · exact h

/-- The content-based stage preserves the accumulation invariant. -/
lemma contentStage_inv (user_id cutoff : Nat) (s : RecState)
    (st : List RecBook × List Nat × Int) (h : InvQ st) :
    InvQ (contentStage user_id cutoff s st) := by
  unfold contentStage
  split
  · dsimp only
    split
    · exact addQuota_inv _ _ _ _ h
    · exact h
  · exact h

/-- The collaborative-filtering stage preserves the accumulation invariant. -/
lemma cfStage_inv (user_id : Nat) (s : RecState)
    (st : List RecBook × List Nat × Int) (h : InvQ st) :
    InvQ (cfStage user_id s st) := by
  unfold cfStage
  split
  · exact addQuota_inv _ _ _ _ h
  · exact h

/-- The trending fallback stage preserves the accumulation invariant. -/
lemma trendingStage_inv (s : RecState) (st : List RecBook × List Nat × Int)
    (h : InvQ st) : InvQ (trendingStage s st) := by
  unfold trendingStage
  split
  · exact addQuota_inv _ _ _ _ h
  · exact h

/-- Enrichment keeps the product ids unchanged. -/
lemma enrich_map_book_id (l : List RecBook) (s : RecState) :
    (enrich l s).map (fun e => e.book_id) = l.map (fun b => b.book_id) := by
  unfold enrich
  rw [List.map_map]
  apply List.map_congr_left
  intro b _
  simp only [Function.comp]
  split <;> rfl

/-- Every candidate of the same-school strategy is on sale. -/
lemma school_popular_products_online (school_id limit : Nat) (s : RecState)
    (b : RecBook) (hb : b ∈ get_school_popular_products school_id limit s) :
    b.status = "online" := by
  unfold get_school_popular_products at hb
  have h1 := List.mem_of_mem_take hb
  rw [mem_sortBy, List.mem_flatMap] at h1
  obtain ⟨b0, _, hmem⟩ := h1
  by_cases hs : b0.status = "online"
  · rw [if_pos hs] at hmem
    obtain ⟨u, _, heq⟩ := List.mem_map.mp hmem
    rw [← heq]
    exact hs
  · rw [if_neg hs] at hmem
    simp at hmem

/-- Every candidate of the content-based strategy is on sale. -/
lemma popular_products_in_categories_online (cats : List Nat) (limit : Nat)
    (excl : Option Nat) (s : RecState) (b : RecBook)
    (hb : b ∈ get_popular_products_in_categories cats limit excl s) :
    b.status = "online" := by
  unfold get_popular_products_in_categories at hb
  obtain ⟨p, hp, hpe⟩ := List.mem_map.mp hb
  have hp2 := List.mem_of_mem_take hp
  rw [mem_sortBy] at hp2
  obtain ⟨b0, hb0, hpe2⟩ := List.mem_map.mp hp2
  have hpred := (List.mem_filter.mp hb0).2
  simp only [Bool.and_eq_true, decide_eq_true_eq] at hpred
  have hb2 : b = b0 := by
    rw [← hpe, ← hpe2]
  rw [hb2]
  exact hpred.1.1

/-- Every candidate of the global-trending strategy is on sale. -/
lemma global_trending_products_online (limit : Nat) (s : RecState) (b : RecBook)
    (hb : b ∈ get_global_trending_products limit s) : b.status = "online" := by
  unfold get_global_trending_products at hb
  obtain ⟨p, hp, hpe⟩ := List.mem_map.mp hb
  have hp2 := List.mem_of_mem_take hp
  rw [mem_sortBy] at hp2
  obtain ⟨b0, hb0, hpe2⟩ := List.mem_map.mp hp2
  have hpred := (List.mem_filter.mp hb0).2
  simp only [decide_eq_true_eq] at hpred
  have hb2 : b = b0 := by
    rw [← hpe, ← hpe2]
  rw [hb2]
  exact hpred

/-- Claim C3, counterexample: in `recS`, book 2 is offline and out of stock,
yet the recommendation output for user 1 includes it — it enters through the
collaborative-filtering strategy, whose queries contain no `status = 'online'`
condition and no stock condition — so the claimed exclusion of
out-of-stock/offline products does not hold for all four strategies. -/
theorem recommendations_return_offline_out_of_stock :
    get_recommendations_for_user 1 10 100 recS = Except.ok [eB, eA] ∧
    eB.book_id = 2 ∧
    (∃ b ∈ recS.books, b.book_id = 2 ∧ b.status = "offline" ∧ b.stock = 0) := by
  refine ⟨by decide, by decide, by decide⟩

/-- Claim C3, amended: the recommendation endpoint returns at most `N`
products with pairwise-distinct product ids, and the same-school,
content-based and global-trending strategies each produce only on-sale
(`status = 'online'`) candidates; but no strategy excludes out-of-stock
products, and collaborative filtering applies no status filter at all (see
the counterexample), so the returned list can contain offline or
out-of-stock products. -/
theorem recommendations_cap_dedup_and_online_filters :
    (∀ (user_id limit cutoff : Nat) (s : RecState) (recs : List Enriched),
        get_recommendations_for_user user_id limit cutoff s = Except.ok recs →
        recs.length ≤ limit ∧ (recs.map (fun r => r.book_id)).Nodup) ∧
    (∀ (school_id limit : Nat) (s : RecState) (b : RecBook),
        b ∈ get_school_popular_products school_id limit s → b.status = "online") ∧
    (∀ (cats : List Nat) (limit : Nat) (excl : Option Nat) (s : RecState) (b : RecBook),
        b ∈ get_popular_products_in_categories cats limit excl s → b.status = "online") ∧
    (∀ (limit : Nat) (s : RecState) (b : RecBook),
        b ∈ get_global_trending_products limit s → b.status = "online") := by
  refine ⟨?_, school_popular_products_online, popular_products_in_categories_online,
    global_trending_products_online⟩
  intro user_id limit cutoff s recs h
  unfold get_recommendations_for_user at h
  split at h
  · exact absurd h (by simp)
  · simp only [Except.ok.injEq] at h
    subst h
    have hinv : InvQ (trendingStage s (cfStage user_id s (contentStage user_id cutoff s
        ((schoolStage user_id limit s ([], [])).1,
         (schoolStage user_id limit s ([], [])).2,
         (limit : Int) - ((schoolStage user_id limit s ([], [])).1.length : Int))))) := by
      apply trendingStage_inv
      apply cfStage_inv
      apply contentStage_inv
      exact schoolStage_inv user_id limit s ([], []) ⟨rfl, List.nodup_nil⟩
    obtain ⟨hmapEq, hnodup⟩ := hinv
    constructor
    · have hlen : (enrich ((trendingStage s (cfStage user_id s (contentStage user_id cutoff s
          ((schoolStage user_id limit s ([], [])).1,
           (schoolStage user_id limit s ([], [])).2,
           (limit : Int) - ((schoolStage user_id limit s ([], [])).1.length : Int))))).1.take
          limit) s).length =
          ((trendingStage s (cfStage user_id s (contentStage user_id cutoff s
          ((schoolStage user_id limit s ([], [])).1,
           (schoolStage user_id limit s ([], [])).2,
           (limit : Int) - ((schoolStage user_id limit s ([], [])).1.length : Int))))).1.take
          limit).length := by
        unfold enrich
        rw [List.length_map]
      rw [hlen, List.length_take]
      exact min_le_left _ _
    · rw [enrich_map_book_id, List.map_take]
      exact List.Nodup.sublist (List.take_sublist _ _) (hmapEq ▸ hnodup)

/-- Witness for C3 (amended): the concrete run on `recS` returns two
distinct products within the limit, and each filtering strategy's concrete
output on `recS2` consists of on-sale books. -/
theorem recommendations_cap_dedup_witness :
    (([eB, eA] : List Enriched).length ≤ 10 ∧
      (([eB, eA] : List Enriched).map (fun r => r.book_id)).Nodup) ∧
    bOnline.status = "online" ∧
    bOnline.status = "online" ∧
    bOnline.status = "online" :=
  ⟨recommendations_cap_dedup_and_online_filters.1 1 10 100 recS [eB, eA] (by decide),
   recommendations_cap_dedup_and_online_filters.2.1 7 3 recS2 bOnline (by decide),
   recommendations_cap_dedup_and_online_filters.2.2.1 [1] 3 none recS2 bOnline (by decide),
   recommendations_cap_dedup_and_online_filters.2.2.2 3 recS2 bOnline (by decide)⟩

end Bookstore
